import Mathlib

/-!
Verification of the GPURuntimeTessellation plugin (UE5 GPU runtime tessellation).

This file gives a shallow embedding of the CPU-side arithmetic of the plugin:

* `FGPUTessellationMeshBuilder::CalculateResolution`
  (GPUTessellationMeshBuilder.cpp) — tessellation factor to grid resolution;
* `UGPUTessellationComponent::CalculateGridResolution`
  (GPUTessellationComponent.cpp) — the component-side resolution variant;
* `FGPUTessellationMeshBuilder::ComputePatchEdgeTransitions` — edge-collapse
  factors between adjacent patches;
* `FGPUTessellationMeshBuilder::CalculatePatchTessellationLevel` and
  `ConvertPatchLevelToTessellation` — distance-threshold patch LOD lookup;
* `UGPUTessellationComponent::CalculateLODFactorScaled`,
  `UpdateDistanceBasedLOD`, `UpdateDiscreteLOD` — continuous and discrete
  LOD evaluation with smoothing and hysteresis;
* `FGPUTessellationMeshBuilder::ExecutePatchTessellationPipeline` /
  `GenerateSinglePatch` — the per-patch validation and skip logic.

Floating point values (`float` in the source) are modelled as rationals `ℚ`,
`int32` as `ℤ` (or `ℕ` where the source values are provably non-negative),
and `TArray` as `List`.  Engine-side effects (render commands, logging, GPU
buffers) are not modelled; per-patch GPU buffer sets are abstracted to an
`Option` of their dimensions, `none` standing for a `Reset` (invalid) set.
-/

/-- FMath::Clamp: `(X < Min) ? Min : (X < Max) ? X : Max`. -/
def Clamp {α : Type} [LinearOrder α] (x lo hi : α) : α :=
  if x < lo then lo else if x < hi then x else hi

/-- FMath::DivideAndRoundUp on non-negative integers: `(a + b - 1) / b`. -/
def DivideAndRoundUp (a b : ℕ) : ℕ := (a + b - 1) / b

/-- FMath::RoundToInt, modelled as the generic-platform `floor(x + 0.5)`. -/
def RoundToInt (x : ℚ) : ℤ := (x + 1/2).floor

/-- FMath::Lerp: `A + (B - A) * t`. -/
def Lerp (a b t : ℚ) : ℚ := a + (b - a) * t

theorem Clamp_eq_min_max {α : Type} [LinearOrder α] (x lo hi : α) (h : lo ≤ hi) :
    Clamp x lo hi = min hi (max lo x) := by
  unfold Clamp
  split_ifs with h1 h2
  · rw [max_eq_left h1.le, min_eq_right h]
  · rw [max_eq_right (not_lt.1 h1), min_eq_right h2.le]
  · rw [max_eq_right (not_lt.1 h1), min_eq_left (not_lt.1 h2)]

theorem RoundToInt_eq_floor (x : ℚ) : RoundToInt x = ⌊x + 1/2⌋ :=
  ((x + 1/2).floor_def').trans Rat.floor_def.symm

theorem RoundToInt_intCast (z : ℤ) : RoundToInt (z : ℚ) = z := by
  rw [RoundToInt_eq_floor, Int.floor_int_add]
  norm_num

/-- FGPUTessellationMeshBuilder::CalculateResolution
(GPUTessellationMeshBuilder.cpp, lines 26-46).  Converts a tessellation
factor to a square grid resolution: segments = round(factor)·4, clamped to
[8, 1023], padded up to a multiple of the thread-group size 8, re-clamped,
then one vertex added to close the grid, capped at 1024. -/
def CalculateResolution (TessellationFactor : ℚ) : ℕ × ℕ :=
  let ThreadGroupSize : ℕ := 8
  let MaxResolution : ℕ := 1024
  let MaxSegments : ℕ := MaxResolution - 1
  let DesiredSegments0 : ℕ := (max 1 (RoundToInt TessellationFactor * 4)).toNat
  let DesiredSegments : ℕ := Clamp DesiredSegments0 ThreadGroupSize MaxSegments
  let Segments : ℕ :=
    Clamp (DivideAndRoundUp DesiredSegments ThreadGroupSize * ThreadGroupSize)
      ThreadGroupSize MaxSegments
  let Resolution : ℕ := min (Segments + 1) MaxResolution
  (Resolution, Resolution)

/-- UGPUTessellationComponent::CalculateGridResolution
(GPUTessellationComponent.cpp, lines 275-291), as a function of the
effective tessellation factor: resolution = factor·4 clamped to [4, 1024]
and rounded up to a multiple of 8 (no closing `+1` vertex here). -/
def CalculateGridResolutionFromFactor (EffectiveTessellationFactor : ℤ) : ℕ × ℕ :=
  let Resolution0 : ℕ := (Clamp (EffectiveTessellationFactor * 4) 4 1024).toNat
  let Resolution : ℕ := DivideAndRoundUp Resolution0 8 * 8
  (Resolution, Resolution)

theorem RoundToInt_eval_16 : RoundToInt 16 = 16 := by
  rw [show (16 : ℚ) = ((16 : ℤ) : ℚ) by norm_num, RoundToInt_intCast]

theorem RoundToInt_eval_255 : RoundToInt 255 = 255 := by
  rw [show (255 : ℚ) = ((255 : ℤ) : ℚ) by norm_num, RoundToInt_intCast]

theorem CalculateResolution_eval_16 : CalculateResolution 16 = (65, 65) := by
  simp only [CalculateResolution, RoundToInt_eval_16]
  decide

theorem CalculateResolution_eval_255 : CalculateResolution 255 = (1024, 1024) := by
  simp only [CalculateResolution, RoundToInt_eval_255]
  decide

/-- C1: for every tessellationFactor ≥ 0, `CalculateResolution` returns a
square resolution in [9, 1025] with (resolution − 1) divisible by 8.
This is the claim as stated; it fails at factor 255 (see the counterexample),
where the 1024 cap produces 1023 segments, not a multiple of 8. -/
theorem C1_resolution_range_counterexample :
    (0 : ℚ) ≤ 255 ∧
      ¬(((CalculateResolution 255).1 - 1) % 8 = 0) := by
  refine ⟨by norm_num, ?_⟩
  rw [CalculateResolution_eval_255]
  decide

/-- C1 (amended): for every tessellationFactor ≥ 0, `CalculateResolution`
returns a square resolution in [9, 1024], and (resolution − 1) is divisible
by 8 except when the 1024 cap is hit, in which case the resolution is
exactly 1024 (1023 segments). -/
theorem C1_resolution_range_amended (TessellationFactor : ℚ)
    (h : 0 ≤ TessellationFactor) :
    9 ≤ (CalculateResolution TessellationFactor).1 ∧
      (CalculateResolution TessellationFactor).1 ≤ 1024 ∧
      (CalculateResolution TessellationFactor).1 =
        (CalculateResolution TessellationFactor).2 ∧
      ((((CalculateResolution TessellationFactor).1 - 1) % 8 = 0) ∨
        (CalculateResolution TessellationFactor).1 = 1024) := by
  simp only [CalculateResolution, Clamp, DivideAndRoundUp]
  have h1 : (1 : ℤ) ≤ max 1 (RoundToInt TessellationFactor * 4) := le_max_left _ _
  refine ⟨?_, ?_, trivial, ?_⟩ <;> split_ifs <;> omega

theorem C1_resolution_range_amended_witness :
    (0 : ℚ) ≤ 16 ∧
      (9 ≤ (CalculateResolution 16).1 ∧
        (CalculateResolution 16).1 ≤ 1024 ∧
        (CalculateResolution 16).1 = (CalculateResolution 16).2 ∧
        ((((CalculateResolution 16).1 - 1) % 8 = 0) ∨
          (CalculateResolution 16).1 = 1024)) :=
  ⟨by norm_num, C1_resolution_range_amended 16 (by norm_num)⟩

/-- C2: the claim states the resolution calculator returns (64,64) for
factor 16; the mesh builder's `CalculateResolution(16)` in fact returns
(65,65) — 64 segments plus the closing vertex the claim itself mentions. -/
theorem C2_resolution_factor16_counterexample :
    CalculateResolution 16 ≠ (64, 64) ∧ CalculateResolution 16 = (65, 65) := by
  rw [CalculateResolution_eval_16]
  exact ⟨by decide, rfl⟩

/-- C2 (amended): for tessellationFactor = 16 the mesh builder's
`CalculateResolution` returns (65,65) (desired segments = 16·4 = 64, already
a multiple of 8, plus one closing vertex); the component-side
`CalculateGridResolution`, which omits the closing vertex, yields (64,64)
for effective factor 16.  The plane size does not enter either computation. -/
theorem C2_resolution_factor16_amended :
    CalculateResolution 16 = (65, 65) ∧
      CalculateGridResolutionFromFactor 16 = (64, 64) := by
  refine ⟨CalculateResolution_eval_16, ?_⟩
  simp only [CalculateGridResolutionFromFactor]
  decide

/-- EGPUTessellationPatchLevel (GPUTessellationComponent.h, lines 45-53). -/
inductive EGPUTessellationPatchLevel : Type
  | Patch_4
  | Patch_8
  | Patch_16
  | Patch_32
  | Patch_64
  | Patch_128
deriving DecidableEq

/-- The `static_cast<int32>` of an `EGPUTessellationPatchLevel` value
(the enum has no explicit values, so 0-based). -/
def EGPUTessellationPatchLevel.toInt32 : EGPUTessellationPatchLevel → ℤ
  | .Patch_4 => 0
  | .Patch_8 => 1
  | .Patch_16 => 2
  | .Patch_32 => 3
  | .Patch_64 => 4
  | .Patch_128 => 5

/-- FGPUTessellationMeshBuilder::ConvertPatchLevelToTessellation
(GPUTessellationMeshBuilder.cpp, lines 1168-1181). -/
def ConvertPatchLevelToTessellation : EGPUTessellationPatchLevel → ℤ
  | .Patch_4 => 4
  | .Patch_8 => 8
  | .Patch_16 => 16
  | .Patch_32 => 32
  | .Patch_64 => 64
  | .Patch_128 => 128

/-- The for-loop of CalculatePatchTessellationLevel: walk `PatchDistances`
with index `i`; at the first threshold with `DistanceToCamera <= PatchDistances[i]`
assign `TargetLevel = PatchLevels[i]` if `i < PatchLevels.Num()` and break;
`acc` is the current `TargetLevel`. -/
def patchLevelLoop (DistanceToCamera : ℚ) (PatchLevels : List EGPUTessellationPatchLevel)
    (acc : EGPUTessellationPatchLevel) :
    List ℚ → ℕ → EGPUTessellationPatchLevel
  | [], _ => acc
  | t :: rest, i =>
    if DistanceToCamera ≤ t then
      match PatchLevels.get? i with
      | some l => l
      | none => acc
    else
      patchLevelLoop DistanceToCamera PatchLevels acc rest (i + 1)

/-- The tail of CalculatePatchTessellationLevel after its early-outs: run the
threshold loop, then, if the distance is strictly beyond the last threshold,
override with the level at index `min(#distances, #levels) - 1`. -/
def patchLevelCore (DistanceToCamera : ℚ) (PatchDistances : List ℚ)
    (PatchLevels : List EGPUTessellationPatchLevel)
    (acc : EGPUTessellationPatchLevel) : EGPUTessellationPatchLevel :=
  let t1 := patchLevelLoop DistanceToCamera PatchLevels acc PatchDistances 0
  match PatchDistances.getLast? with
  | some lastD =>
    if lastD < DistanceToCamera then
      match PatchLevels.get? (min PatchDistances.length PatchLevels.length - 1) with
      | some l => l
      | none => t1
    else t1
  | none => t1

/-- FGPUTessellationMeshBuilder::CalculatePatchTessellationLevel
(GPUTessellationMeshBuilder.cpp, lines 1090-1166), as a function of the
camera distance and the `PatchDistances`/`PatchLevels` arrays of the
settings.  Empty level table defaults to 16; the loop picks the first
threshold at or beyond the distance; if the distance is strictly beyond the
last threshold, the level at index `min(#distances, #levels) - 1` is used. -/
def CalculatePatchTessellationLevel (DistanceToCamera : ℚ)
    (PatchDistances : List ℚ) (PatchLevels : List EGPUTessellationPatchLevel) : ℤ :=
  match PatchLevels with
  | [] => 16
  | l0 :: _ =>
    match PatchDistances with
    | [] => ConvertPatchLevelToTessellation l0
    | _ :: _ =>
      ConvertPatchLevelToTessellation
        (patchLevelCore DistanceToCamera PatchDistances PatchLevels l0)

/-- The ordered-threshold lookup as the specification words it: walk the
(threshold, level) pairs nearest-to-farthest; the first threshold with
D ≤ threshold selects its level; beyond all thresholds the last level
applies.  (For the last pair both cases give its level.) -/
def specOrderedThresholdLookup (D : ℚ) :
    List (ℚ × EGPUTessellationPatchLevel) → Option EGPUTessellationPatchLevel
  | [] => none
  | [(_, l)] => some l
  | (t, l) :: p :: rest =>
    if D ≤ t then some l else specOrderedThresholdLookup D (p :: rest)

/-- C10: for every distance and settings, `CalculatePatchTessellationLevel`
returns a strictly positive value from {4, 8, 16, 32, 64, 128} (16 by
default for an empty level table), so a patch leveled through it never has
TessellationLevel ≤ 0 and the per-patch abort branch for that condition is
unreachable on this path. -/
theorem C10_patch_level_always_positive (DistanceToCamera : ℚ)
    (PatchDistances : List ℚ) (PatchLevels : List EGPUTessellationPatchLevel) :
    CalculatePatchTessellationLevel DistanceToCamera PatchDistances PatchLevels ∈
        ([4, 8, 16, 32, 64, 128] : List ℤ) ∧
      0 < CalculatePatchTessellationLevel DistanceToCamera PatchDistances PatchLevels := by
  have hconv : ∀ l : EGPUTessellationPatchLevel,
      ConvertPatchLevelToTessellation l ∈ ([4, 8, 16, 32, 64, 128] : List ℤ) ∧
        0 < ConvertPatchLevelToTessellation l := by
    intro l
    cases l <;> exact ⟨by decide, by decide⟩
  unfold CalculatePatchTessellationLevel
  rcases PatchLevels with _ | ⟨l0, ls⟩
  · exact ⟨show (16 : ℤ) ∈ ([4, 8, 16, 32, 64, 128] : List ℤ) by decide,
      show (0 : ℤ) < 16 by decide⟩
  · rcases PatchDistances with _ | ⟨d0, ds⟩
    · exact hconv l0
    · exact hconv _

theorem patchLevelLoop_shift (DistanceToCamera : ℚ)
    (l1 : EGPUTessellationPatchLevel) (ls : List EGPUTessellationPatchLevel)
    (acc : EGPUTessellationPatchLevel) :
    ∀ (ds : List ℚ) (i : ℕ),
      patchLevelLoop DistanceToCamera (l1 :: ls) acc ds (i + 1) =
        patchLevelLoop DistanceToCamera ls acc ds i := by
  intro ds
  induction ds with
  | nil => intro i; rfl
  | cons t rest ih =>
    intro i
    simp only [patchLevelLoop, List.get?_cons_succ]
    split_ifs
    · rfl
    · exact ih (i + 1)

theorem chain'_head_le_getLast {a y : ℚ} :
    ∀ {l : List ℚ}, List.Chain' (· ≤ ·) (a :: l) → l.getLast? = some y → a ≤ y := by
  intro l
  induction l generalizing a with
  | nil => intro _ h; simp at h
  | cons b rest ih =>
    intro hc hl
    have hab : a ≤ b := (List.chain'_cons.1 hc).1
    rcases rest with _ | ⟨c, rest'⟩
    · have hby : b = y := by simpa using hl
      exact hby ▸ hab
    · rw [List.getLast?_cons_cons] at hl
      exact hab.trans (ih (List.chain'_cons.1 hc).2 hl)

theorem patchLevelLoop_cons (DistanceToCamera : ℚ)
    (PatchLevels : List EGPUTessellationPatchLevel) (acc : EGPUTessellationPatchLevel)
    (t : ℚ) (rest : List ℚ) (i : ℕ) :
    patchLevelLoop DistanceToCamera PatchLevels acc (t :: rest) i =
      if DistanceToCamera ≤ t then
        (match PatchLevels.get? i with
          | some l => l
          | none => acc)
      else patchLevelLoop DistanceToCamera PatchLevels acc rest (i + 1) := rfl

theorem specLookup_cons_cons (D t : ℚ) (l : EGPUTessellationPatchLevel)
    (p : ℚ × EGPUTessellationPatchLevel) (rest : List (ℚ × EGPUTessellationPatchLevel)) :
    specOrderedThresholdLookup D ((t, l) :: p :: rest) =
      if D ≤ t then some l else specOrderedThresholdLookup D (p :: rest) := rfl

theorem specLookup_eq_patchLevelCore (DistanceToCamera : ℚ) :
    ∀ (ds : List ℚ) (ls : List EGPUTessellationPatchLevel)
      (acc : EGPUTessellationPatchLevel),
      ds ≠ [] → ds.length = ls.length → List.Chain' (· ≤ ·) ds →
      specOrderedThresholdLookup DistanceToCamera (ds.zip ls) =
        some (patchLevelCore DistanceToCamera ds ls acc) := by
  intro ds
  induction ds with
  | nil => intro ls acc hne; exact absurd rfl hne
  | cons a ds' ih =>
    intro ls acc _ hlen hchain
    rcases ls with _ | ⟨l1, ls'⟩
    · simp at hlen
    rcases ds' with _ | ⟨b, rest⟩
    · -- single threshold
      have hls' : ls' = [] := by
        simpa using hlen
      subst hls'
      simp only [List.zip_cons_cons, List.zip_nil_left, specOrderedThresholdLookup,
        patchLevelCore, patchLevelLoop, List.getLast?_singleton]
      by_cases hd : DistanceToCamera ≤ a
      · simp [hd, not_lt.2 hd]
      · simp only [if_neg hd, if_pos (not_le.1 hd)]
        rfl
    · -- at least two thresholds
      have hlen' : (b :: rest).length = ls'.length := by
        simpa using hlen
      by_cases hd : DistanceToCamera ≤ a
      · -- first threshold hit: loop returns l1, no beyond-all override
        rcases ls' with _ | ⟨l2, ls''⟩
        · simp at hlen'
        have hlast : ∃ y, (b :: rest).getLast? = some y := by
          rcases rest with _ | ⟨c, rest'⟩
          · exact ⟨b, rfl⟩
          · exact ⟨(c :: rest').getLast (by simp),
              by rw [List.getLast?_cons_cons, List.getLast?_eq_getLast_of_ne_nil]⟩
        rcases hlast with ⟨y, hy⟩
        have hay : DistanceToCamera ≤ y :=
          hd.trans (chain'_head_le_getLast hchain hy)
        simp only [List.zip_cons_cons, specOrderedThresholdLookup, if_pos hd,
          patchLevelCore, patchLevelLoop, if_pos hd, List.get?_cons_zero,
          List.getLast?_cons_cons, hy]
        rw [if_neg (not_lt.2 hay)]
      · -- first threshold missed: step into the tail lists
        rcases ls' with _ | ⟨l2, ls''⟩
        · simp at hlen'
        have hloop : patchLevelLoop DistanceToCamera (l1 :: l2 :: ls'') acc (a :: b :: rest) 0 =
            patchLevelLoop DistanceToCamera (l2 :: ls'') acc (b :: rest) 0 := by
          rw [patchLevelLoop_cons, if_neg hd]
          exact patchLevelLoop_shift DistanceToCamera l1 (l2 :: ls'') acc (b :: rest) 0
        have hmin : min (a :: b :: rest).length (l1 :: l2 :: ls'').length - 1 =
            (min (b :: rest).length (l2 :: ls'').length - 1) + 1 := by
          simp only [List.length_cons]
          omega
        have hcore : patchLevelCore DistanceToCamera (a :: b :: rest) (l1 :: l2 :: ls'') acc =
            patchLevelCore DistanceToCamera (b :: rest) (l2 :: ls'') acc := by
          simp only [patchLevelCore, List.getLast?_cons_cons]
          rw [hloop, hmin, List.get?_cons_succ]
        rw [hcore]
        rw [show (a :: b :: rest).zip (l1 :: l2 :: ls'') =
            (a, l1) :: (b, l2) :: rest.zip ls'' by simp [List.zip_cons_cons]]
        rw [specLookup_cons_cons, if_neg hd]
        exact ih (l2 :: ls'') acc (by simp) hlen' hchain.tail

/-- C4: for a patch at camera distance D, the assigned tessellation level is
the ordered-threshold lookup over PatchDistances/PatchLevels at D (first
threshold with D ≤ threshold selects its level; beyond all thresholds the
last level applies), assuming the distance table is nonempty, sorted
nearest-to-farthest, and paired one-to-one with the level table; in
particular distances {2000, 5000} with levels {64, 16} assign level 16 at
distance 3000. -/
theorem C4_patch_distance_threshold_lookup (D : ℚ) (PatchDistances : List ℚ)
    (PatchLevels : List EGPUTessellationPatchLevel)
    (hne : PatchDistances ≠ [])
    (hlen : PatchDistances.length = PatchLevels.length)
    (hsorted : List.Chain' (· ≤ ·) PatchDistances) :
    CalculatePatchTessellationLevel D PatchDistances PatchLevels =
        (specOrderedThresholdLookup D (PatchDistances.zip PatchLevels)).elim 16
          ConvertPatchLevelToTessellation ∧
      CalculatePatchTessellationLevel 3000 [2000, 5000]
          [EGPUTessellationPatchLevel.Patch_64, EGPUTessellationPatchLevel.Patch_16] = 16 := by
  constructor
  · rcases PatchLevels with _ | ⟨l0, ls⟩
    · rcases PatchDistances with _ | _
      · exact absurd rfl hne
      · simp at hlen
    · rcases PatchDistances with _ | ⟨d0, ds⟩
      · exact absurd rfl hne
      · rw [specLookup_eq_patchLevelCore D (d0 :: ds) (l0 :: ls) l0 (by simp) hlen hsorted]
        rfl
  · decide

theorem C4_patch_distance_threshold_lookup_witness :
    (([2000, 5000] : List ℚ) ≠ [] ∧
        ([2000, 5000] : List ℚ).length =
          ([EGPUTessellationPatchLevel.Patch_64, EGPUTessellationPatchLevel.Patch_16]).length ∧
        List.Chain' (· ≤ ·) ([2000, 5000] : List ℚ)) ∧
      (CalculatePatchTessellationLevel 3000 [2000, 5000]
            [EGPUTessellationPatchLevel.Patch_64, EGPUTessellationPatchLevel.Patch_16] =
          (specOrderedThresholdLookup 3000
              (([2000, 5000] : List ℚ).zip
                [EGPUTessellationPatchLevel.Patch_64, EGPUTessellationPatchLevel.Patch_16])).elim
            16 ConvertPatchLevelToTessellation ∧
        CalculatePatchTessellationLevel 3000 [2000, 5000]
          [EGPUTessellationPatchLevel.Patch_64, EGPUTessellationPatchLevel.Patch_16] = 16) :=
  ⟨⟨by decide, by decide,
      List.chain'_cons.2 ⟨by decide, List.chain'_singleton 5000⟩⟩,
    C4_patch_distance_threshold_lookup 3000 [2000, 5000]
      [EGPUTessellationPatchLevel.Patch_64, EGPUTessellationPatchLevel.Patch_16]
      (by decide) (by decide)
      (List.chain'_cons.2 ⟨by decide, List.chain'_singleton 5000⟩)⟩

/-- FGPUTessellationPatchInfo (the fields used by edge transitions and
per-patch generation; world-space center/bounds and grid indices are
omitted as no claim depends on them). -/
structure FGPUTessellationPatchInfo where
  PatchOffset : ℚ × ℚ
  PatchSize : ℚ × ℚ
  TessellationLevel : ℤ
  ResolutionX : ℤ
  ResolutionY : ℤ
  bVisible : Bool
deriving DecidableEq

/-- The `GetPatch` lambda of ComputePatchEdgeTransitions
(GPUTessellationMeshBuilder.cpp, lines 1036-1043): bounds-checked lookup
into the row-major patch array. -/
def getPatchIn (PatchCountX PatchCountY : ℤ)
    (PatchInfo : List FGPUTessellationPatchInfo) (X Y : ℤ) :
    Option FGPUTessellationPatchInfo :=
  if X < 0 ∨ PatchCountX ≤ X ∨ Y < 0 ∨ PatchCountY ≤ Y then none
  else PatchInfo.get? (Y * PatchCountX + X).toNat

/-- The `ComputeFactor` lambda of ComputePatchEdgeTransitions
(GPUTessellationMeshBuilder.cpp, lines 1052-1076): collapse factor of one
patch toward one (optional) neighbor along a vertical or horizontal edge. -/
def computeEdgeFactor (Patch : FGPUTessellationPatchInfo)
    (Neighbor : Option FGPUTessellationPatchInfo) (bVerticalEdge : Bool) : ℤ :=
  match Neighbor with
  | none => 1
  | some n =>
    if Patch.ResolutionX ≤ 0 ∨ Patch.ResolutionY ≤ 0 ∨
        n.ResolutionX ≤ 0 ∨ n.ResolutionY ≤ 0 then 1
    else if Patch.TessellationLevel ≤ n.TessellationLevel then 1
    else
      let MySegments :=
        max 1 ((if bVerticalEdge then Patch.ResolutionY else Patch.ResolutionX) - 1)
      let NeighborSegments :=
        max 1 ((if bVerticalEdge then n.ResolutionY else n.ResolutionX) - 1)
      if NeighborSegments ≤ 0 ∨ MySegments ≤ NeighborSegments then 1
      else Clamp (max 1 (MySegments / NeighborSegments)) 1 64

/-- FGPUTessellationMeshBuilder::ComputePatchEdgeTransitions
(GPUTessellationMeshBuilder.cpp, lines 1028-1088), per patch: the
(west, east, south, north) edge-collapse factors of the patch at grid
position (X, Y).  West/east edges run vertically (Y-axis segments),
south/north horizontally. -/
def ComputePatchEdgeTransitions (PatchCountX PatchCountY : ℤ)
    (PatchInfo : List FGPUTessellationPatchInfo) (X Y : ℤ) : ℤ × ℤ × ℤ × ℤ :=
  match PatchInfo.get? (Y * PatchCountX + X).toNat with
  | none => (1, 1, 1, 1)
  | some p =>
    (computeEdgeFactor p (getPatchIn PatchCountX PatchCountY PatchInfo (X - 1) Y) true,
     computeEdgeFactor p (getPatchIn PatchCountX PatchCountY PatchInfo (X + 1) Y) true,
     computeEdgeFactor p (getPatchIn PatchCountX PatchCountY PatchInfo X (Y - 1)) false,
     computeEdgeFactor p (getPatchIn PatchCountX PatchCountY PatchInfo X (Y + 1)) false)

/-- Patch "A" of the spec's edge-collapse example: level 64, so resolution
257 = CalculateResolution(64), at grid cell (0,0) of a 2x1 grid. -/
def patchLevel64Example : FGPUTessellationPatchInfo :=
  { PatchOffset := (0, 0), PatchSize := (1/2, 1), TessellationLevel := 64,
    ResolutionX := 257, ResolutionY := 257, bVisible := true }

/-- Patch "B" of the spec's edge-collapse example: level 16, resolution 65,
at grid cell (1,0). -/
def patchLevel16Example : FGPUTessellationPatchInfo :=
  { PatchOffset := (1/2, 0), PatchSize := (1/2, 1), TessellationLevel := 16,
    ResolutionX := 65, ResolutionY := 65, bVisible := true }

theorem edgeFactorCore (pl nl pr nr : ℤ) (hpr : 2 ≤ pr) (hnr : 2 ≤ nr) :
    (if pl ≤ nl then (1 : ℤ)
      else if max 1 (nr - 1) ≤ 0 ∨ max 1 (pr - 1) ≤ max 1 (nr - 1) then 1
      else Clamp (max 1 (max 1 (pr - 1) / max 1 (nr - 1))) 1 64) =
      if nl < pl then Clamp (max 1 ((pr - 1) / (nr - 1))) 1 64 else 1 := by
  have hm : max 1 (pr - 1) = pr - 1 := max_eq_right (by omega)
  have hn : max 1 (nr - 1) = nr - 1 := max_eq_right (by omega)
  rw [hm, hn]
  by_cases h : pl ≤ nl
  · rw [if_pos h, if_neg (not_lt.2 h)]
  · rw [if_neg h, if_pos (lt_of_not_le h)]
    by_cases hseg : pr - 1 ≤ nr - 1
    · rw [if_pos (Or.inr hseg)]
      rcases lt_or_eq_of_le hseg with hlt | heq
      · rw [Int.ediv_eq_zero_of_lt (by omega) hlt]
        decide
      · rw [heq, Int.ediv_self (by omega)]
        decide
    · rw [if_neg (by omega)]

/-- C3: toward a present neighbor of strictly lower tessellation level, the
edge-collapse factor is max(1, mySegments / neighborSegments) clamped to
[1, 64]; toward an equal-or-finer neighbor it is 1 (segments being
resolution − 1 along the shared edge's axis).  In particular in a 2x1 grid
with A (level 64, res 257) west of B (level 16, res 65): A's east factor is
(257−1)/(65−1) = 4 and B's west factor is 1. -/
theorem C3_edge_collapse_factor (p n : FGPUTessellationPatchInfo)
    (bVerticalEdge : Bool)
    (hpx : 2 ≤ p.ResolutionX) (hpy : 2 ≤ p.ResolutionY)
    (hnx : 2 ≤ n.ResolutionX) (hny : 2 ≤ n.ResolutionY) :
    (computeEdgeFactor p (some n) bVerticalEdge =
        if n.TessellationLevel < p.TessellationLevel then
          Clamp (max 1 (((if bVerticalEdge then p.ResolutionY else p.ResolutionX) - 1) /
              ((if bVerticalEdge then n.ResolutionY else n.ResolutionX) - 1))) 1 64
        else 1) ∧
      (ComputePatchEdgeTransitions 2 1 [patchLevel64Example, patchLevel16Example] 0 0).2.1 = 4 ∧
      (ComputePatchEdgeTransitions 2 1 [patchLevel64Example, patchLevel16Example] 1 0).1 = 1 := by
  refine ⟨?_, by decide, by decide⟩
  simp only [computeEdgeFactor]
  rw [if_neg (by omega)]
  cases bVerticalEdge with
  | false =>
    simp only [Bool.false_eq_true, if_false]
    exact edgeFactorCore p.TessellationLevel n.TessellationLevel
      p.ResolutionX n.ResolutionX hpx hnx
  | true =>
    simp only [eq_self_iff_true, if_true]
    exact edgeFactorCore p.TessellationLevel n.TessellationLevel
      p.ResolutionY n.ResolutionY hpy hny

theorem C3_edge_collapse_factor_witness :
    (2 ≤ patchLevel64Example.ResolutionX ∧ 2 ≤ patchLevel64Example.ResolutionY ∧
        2 ≤ patchLevel16Example.ResolutionX ∧ 2 ≤ patchLevel16Example.ResolutionY) ∧
      ((computeEdgeFactor patchLevel64Example (some patchLevel16Example) true =
          if patchLevel16Example.TessellationLevel <
              patchLevel64Example.TessellationLevel then
            Clamp (max 1
              (((if true then patchLevel64Example.ResolutionY
                  else patchLevel64Example.ResolutionX) - 1) /
                ((if true then patchLevel16Example.ResolutionY
                  else patchLevel16Example.ResolutionX) - 1))) 1 64
          else 1) ∧
        (ComputePatchEdgeTransitions 2 1
            [patchLevel64Example, patchLevel16Example] 0 0).2.1 = 4 ∧
        (ComputePatchEdgeTransitions 2 1
            [patchLevel64Example, patchLevel16Example] 1 0).1 = 1) :=
  ⟨⟨by decide, by decide, by decide, by decide⟩,
    C3_edge_collapse_factor patchLevel64Example patchLevel16Example true
      (by decide) (by decide) (by decide) (by decide)⟩

/-- EGPUTessellationLODMode (GPUTessellationComponent.h, lines 32-39). -/
inductive EGPUTessellationLODMode : Type
  | Disabled
  | DistanceBased
  | DistanceBasedDiscrete
  | DistanceBasedPatches
  | DensityTexture
deriving DecidableEq

/-- FGPUTessellationSettings (GPUTessellationComponent.h, lines 58-190),
restricted to the fields the LOD/resolution claims read.  Displacement,
normal-calculation and texture fields are omitted; no claim depends on
them. -/
structure FGPUTessellationSettings where
  TessellationFactor : ℤ
  PlaneSizeX : ℚ
  PlaneSizeY : ℚ
  LODMode : EGPUTessellationLODMode
  DiscreteLODLevels : List EGPUTessellationPatchLevel
  DiscreteLODDistances : List ℚ
  PatchLevels : List EGPUTessellationPatchLevel
  PatchDistances : List ℚ
  MaxTessellationFactor : ℤ
  MinTessellationFactor : ℤ
  MinTessellationDistance : ℚ
  MaxTessellationDistance : ℚ
  LODTransitionSpeed : ℚ
  LODHysteresis : ℤ
deriving DecidableEq

/-- The LOD-relevant mutable state of a UGPUTessellationComponent:
its settings, the smoothed `CurrentLODLevel`, the hysteresis-gated
`LastAppliedTessFactor` (GPUTessellationComponent.h, lines 334-337), and
whether `MarkRenderStateDirty` has been requested (the mesh-dirty flag). -/
structure UGPUTessellationComponentState where
  TessellationSettings : FGPUTessellationSettings
  CurrentLODLevel : ℚ
  LastAppliedTessFactor : ℤ
  bRenderStateDirty : Bool
deriving DecidableEq

/-- UGPUTessellationComponent::CalculateGridResolution
(GPUTessellationComponent.cpp, lines 275-291) on the component state: the
effective factor is `LastAppliedTessFactor` when LOD is active, else the
user-authored `TessellationSettings.TessellationFactor`. -/
def CalculateGridResolution (st : UGPUTessellationComponentState) : ℕ × ℕ :=
  CalculateGridResolutionFromFactor
    (if st.TessellationSettings.LODMode ≠ EGPUTessellationLODMode.Disabled then
      st.LastAppliedTessFactor
    else st.TessellationSettings.TessellationFactor)

/-- UGPUTessellationComponent::CalculateLODFactorScaled
(GPUTessellationComponent.cpp, lines 689-732): smoothstep interpolation of
the tessellation factor between the scaled min/max distances, with the
`MaxDist = MinDist + 1000` failsafe when min ≥ max, and the result rounded
and clamped to [1, 256]. -/
def CalculateLODFactorScaled (S : FGPUTessellationSettings)
    (Distance ScaledMinDistance ScaledMaxDistance : ℚ) : ℤ :=
  let MinDist := ScaledMinDistance
  let MaxDist := if ScaledMaxDistance ≤ MinDist then MinDist + 1000 else ScaledMaxDistance
  let t : ℚ :=
    if Distance ≤ MinDist then 0
    else if MaxDist ≤ Distance then 1
    else
      let t0 := (Distance - MinDist) / (MaxDist - MinDist)
      t0 * t0 * (3 - 2 * t0)
  let LerpedFactor :=
    Lerp (S.MaxTessellationFactor : ℚ) (S.MinTessellationFactor : ℚ) t
  Clamp (RoundToInt LerpedFactor) 1 256

/-- The interpolation parameter exactly as the specification words it:
t = 0 at or below the scaled min distance, 1 at or beyond the scaled max,
else smoothstep(normalized distance) = 3t² − 2t³. -/
def specInterpolationParameter (Distance ScaledMinDistance ScaledMaxDistance : ℚ) : ℚ :=
  if Distance ≤ ScaledMinDistance then 0
  else if ScaledMaxDistance ≤ Distance then 1
  else
    3 * ((Distance - ScaledMinDistance) / (ScaledMaxDistance - ScaledMinDistance)) ^ 2 -
      2 * ((Distance - ScaledMinDistance) / (ScaledMaxDistance - ScaledMinDistance)) ^ 3

theorem RoundToInt_eval_64 : RoundToInt 64 = 64 := by
  rw [show (64 : ℚ) = ((64 : ℤ) : ℚ) by norm_num, RoundToInt_intCast]

theorem RoundToInt_eval_8 : RoundToInt 8 = 8 := by
  rw [show (8 : ℚ) = ((8 : ℤ) : ℚ) by norm_num, RoundToInt_intCast]

/-- The continuous-LOD configuration of the spec's concrete scenarios 3/4:
minDist = 1000, maxDist = 50000, minFactor = 8, maxFactor = 64. -/
def continuousLODSettingsExample : FGPUTessellationSettings :=
  { TessellationFactor := 16, PlaneSizeX := 1000, PlaneSizeY := 1000,
    LODMode := EGPUTessellationLODMode.DistanceBased,
    DiscreteLODLevels := [], DiscreteLODDistances := [],
    PatchLevels := [], PatchDistances := [],
    MaxTessellationFactor := 64, MinTessellationFactor := 8,
    MinTessellationDistance := 1000, MaxTessellationDistance := 50000,
    LODTransitionSpeed := 2, LODHysteresis := 2 }

/-- C5: with scaledMin < scaledMax, the continuous-LOD target factor is
lerp(maxFactor, minFactor, t) (rounded, clamped to [1,256]) with t = 0 for
distance ≤ scaledMin, t = 1 for distance ≥ scaledMax, else
smoothstep = 3t²−2t³ of the normalized distance; in particular with
minDist=1000, maxDist=50000, minFactor=8, maxFactor=64, distance 1000 gives
factor 64 and distance 50000 gives factor 8. -/
theorem C5_continuous_lod_target_factor (S : FGPUTessellationSettings)
    (Distance ScaledMinDistance ScaledMaxDistance : ℚ)
    (h : ScaledMinDistance < ScaledMaxDistance) :
    CalculateLODFactorScaled S Distance ScaledMinDistance ScaledMaxDistance =
        Clamp (RoundToInt (Lerp (S.MaxTessellationFactor : ℚ)
          (S.MinTessellationFactor : ℚ)
          (specInterpolationParameter Distance ScaledMinDistance
            ScaledMaxDistance))) 1 256 ∧
      CalculateLODFactorScaled continuousLODSettingsExample 1000 1000 50000 = 64 ∧
      CalculateLODFactorScaled continuousLODSettingsExample 50000 1000 50000 = 8 := by
  refine ⟨?_, ?_, ?_⟩
  · have ht : (if Distance ≤ ScaledMinDistance then (0 : ℚ)
        else if ScaledMaxDistance ≤ Distance then 1
        else
          (Distance - ScaledMinDistance) / (ScaledMaxDistance - ScaledMinDistance) *
              ((Distance - ScaledMinDistance) / (ScaledMaxDistance - ScaledMinDistance)) *
            (3 - 2 * ((Distance - ScaledMinDistance) /
              (ScaledMaxDistance - ScaledMinDistance)))) =
        specInterpolationParameter Distance ScaledMinDistance ScaledMaxDistance := by
      unfold specInterpolationParameter
      split_ifs <;> ring
    simp only [CalculateLODFactorScaled, if_neg (not_le.2 h), ht]
  · simp only [CalculateLODFactorScaled, continuousLODSettingsExample, Lerp]
    norm_num [Clamp, RoundToInt_eval_64]
  · simp only [CalculateLODFactorScaled, continuousLODSettingsExample, Lerp]
    norm_num [Clamp, RoundToInt_eval_8]

theorem C5_continuous_lod_target_factor_witness :
    (1000 : ℚ) < 50000 ∧
      (CalculateLODFactorScaled continuousLODSettingsExample 1000 1000 50000 =
          Clamp (RoundToInt (Lerp
            ((continuousLODSettingsExample.MaxTessellationFactor : ℚ))
            ((continuousLODSettingsExample.MinTessellationFactor : ℚ))
            (specInterpolationParameter 1000 1000 50000))) 1 256 ∧
        CalculateLODFactorScaled continuousLODSettingsExample 1000 1000 50000 = 64 ∧
        CalculateLODFactorScaled continuousLODSettingsExample 50000 1000 50000 = 8) :=
  ⟨by decide,
    C5_continuous_lod_target_factor continuousLODSettingsExample 1000 1000 50000
      (by decide)⟩

/-- FMath::FInterpTo: exponential interpolation toward a target, snapping
when the interpolation speed is non-positive or the squared distance is
below SMALL_NUMBER = 1e-8. -/
def FInterpTo (Current Target DeltaTime InterpSpeed : ℚ) : ℚ :=
  if InterpSpeed ≤ 0 then Target
  else
    let Dist := Target - Current
    if Dist * Dist < 1 / 100000000 then Target
    else Current + Dist * Clamp (DeltaTime * InterpSpeed) 0 1

/-- The smoothed LOD level one call of UpdateDistanceBasedLOD computes
(GPUTessellationComponent.cpp, lines 403-416): the target factor from the
scale-adjusted distance thresholds, interpolated from `CurrentLODLevel`
when `LODTransitionSpeed > 0`, else snapped. -/
def smoothedLODLevel (Distance MaxScale DeltaTime : ℚ)
    (st : UGPUTessellationComponentState) : ℚ :=
  let S := st.TessellationSettings
  let ScaledMinDistance := S.MinTessellationDistance * MaxScale
  let ScaledMaxDistance := S.MaxTessellationDistance * MaxScale
  let TargetTessFactor :=
    CalculateLODFactorScaled S Distance ScaledMinDistance ScaledMaxDistance
  if 0 < S.LODTransitionSpeed then
    FInterpTo st.CurrentLODLevel (TargetTessFactor : ℚ) DeltaTime S.LODTransitionSpeed
  else (TargetTessFactor : ℚ)

/-- UGPUTessellationComponent::UpdateDistanceBasedLOD
(GPUTessellationComponent.cpp, lines 293-438) as a state transformer, given
the measured distance, the maximum absolute scale component, and the frame
delta time (camera lookup and logging are outside the model): smooth the
level, round it, and commit `LastAppliedTessFactor` plus a render-state
dirty mark only when the change exceeds the hysteresis. -/
def UpdateDistanceBasedLOD (Distance MaxScale DeltaTime : ℚ)
    (st : UGPUTessellationComponentState) : UGPUTessellationComponentState :=
  let cur := smoothedLODLevel Distance MaxScale DeltaTime st
  let NewTessFactor := RoundToInt cur
  if st.TessellationSettings.LODHysteresis <
      |NewTessFactor - st.LastAppliedTessFactor| then
    { st with
      CurrentLODLevel := cur
      LastAppliedTessFactor := NewTessFactor
      bRenderStateDirty := true }
  else { st with CurrentLODLevel := cur }

/-- The `switch ((EGPUTessellationPatchLevel)TargetTessFactor)` of
UpdateDiscreteLOD (GPUTessellationComponent.cpp, lines 559-568): raw enum
value back to an actual tessellation factor, 16 for anything unrecognized. -/
def convertPatchLevelInt (n : ℤ) : ℤ :=
  if n = 0 then 4
  else if n = 1 then 8
  else if n = 2 then 16
  else if n = 3 then 32
  else if n = 4 then 64
  else if n = 5 then 128
  else 16

/-- The threshold loop of UpdateDiscreteLOD (GPUTessellationComponent.cpp,
lines 540-557): while `i < #distances && i < #levels`, beyond threshold i
move `TargetTessFactor` to level i+1 when it exists; within threshold i
take level i and break. -/
def discreteLODLoop (ScaledDistance : ℚ) (LevelIdx : List ℤ) :
    List ℚ → ℕ → ℤ → ℤ
  | [], _, acc => acc
  | t :: rest, i, acc =>
    if i < LevelIdx.length then
      if t < ScaledDistance then
        discreteLODLoop ScaledDistance LevelIdx rest (i + 1)
          (if i + 1 < LevelIdx.length then LevelIdx.getD (i + 1) acc else acc)
      else LevelIdx.getD i acc
    else acc

/-- The discrete target factor of UpdateDiscreteLOD: default raw value 4,
else start from level 0 and walk the thresholds, then convert the raw enum
value to a factor. -/
def UpdateDiscreteLOD_targetFactor (ScaledDistance : ℚ)
    (S : FGPUTessellationSettings) : ℤ :=
  let raw : ℤ :=
    match S.DiscreteLODLevels with
    | [] => 4
    | l0 :: _ =>
      discreteLODLoop ScaledDistance
        (S.DiscreteLODLevels.map EGPUTessellationPatchLevel.toInt32)
        S.DiscreteLODDistances 0 l0.toInt32
  convertPatchLevelInt raw

/-- UGPUTessellationComponent::UpdateDiscreteLOD
(GPUTessellationComponent.cpp, lines 486-590) as a state transformer:
scaled distance = distance / maxScale, discrete target level selection,
then a `>=` hysteresis commit. -/
def UpdateDiscreteLOD (Distance MaxScale : ℚ)
    (st : UGPUTessellationComponentState) : UGPUTessellationComponentState :=
  let ScaledDistance := Distance / MaxScale
  let TargetTessFactor :=
    UpdateDiscreteLOD_targetFactor ScaledDistance st.TessellationSettings
  if st.TessellationSettings.LODHysteresis ≤
      |TargetTessFactor - st.LastAppliedTessFactor| then
    { st with
      LastAppliedTessFactor := TargetTessFactor
      CurrentLODLevel := (TargetTessFactor : ℚ)
      bRenderStateDirty := true }
  else st

theorem UpdateDistanceBasedLOD_settings (Distance MaxScale DeltaTime : ℚ)
    (st : UGPUTessellationComponentState) :
    (UpdateDistanceBasedLOD Distance MaxScale DeltaTime st).TessellationSettings =
      st.TessellationSettings := by
  unfold UpdateDistanceBasedLOD
  dsimp only
  split_ifs <;> rfl

theorem UpdateDiscreteLOD_settings (Distance MaxScale : ℚ)
    (st : UGPUTessellationComponentState) :
    (UpdateDiscreteLOD Distance MaxScale st).TessellationSettings =
      st.TessellationSettings := by
  unfold UpdateDiscreteLOD
  dsimp only
  split_ifs <;> rfl

/-- C6: in a continuous-LOD evaluation step, if the rounded smoothed level
is within the hysteresis threshold of `LastAppliedTessFactor`, then
`LastAppliedTessFactor` and the mesh-dirty flag are unchanged by the step. -/
theorem C6_hysteresis_blocks_commit (Distance MaxScale DeltaTime : ℚ)
    (st : UGPUTessellationComponentState)
    (h : |RoundToInt (smoothedLODLevel Distance MaxScale DeltaTime st) -
        st.LastAppliedTessFactor| ≤ st.TessellationSettings.LODHysteresis) :
    (UpdateDistanceBasedLOD Distance MaxScale DeltaTime st).LastAppliedTessFactor =
        st.LastAppliedTessFactor ∧
      (UpdateDistanceBasedLOD Distance MaxScale DeltaTime st).bRenderStateDirty =
        st.bRenderStateDirty := by
  unfold UpdateDistanceBasedLOD
  rw [if_neg (not_lt.2 h)]
  exact ⟨rfl, rfl⟩

theorem RoundToInt_eval_32 : RoundToInt 32 = 32 := by
  rw [show (32 : ℚ) = ((32 : ℤ) : ℚ) by norm_num, RoundToInt_intCast]

theorem RoundToInt_eval_48 : RoundToInt 48 = 48 := by
  rw [show (48 : ℚ) = ((48 : ℤ) : ℚ) by norm_num, RoundToInt_intCast]

/-- The continuous-LOD settings with snapping (transition speed 0). -/
def snapLODSettingsExample : FGPUTessellationSettings :=
  { continuousLODSettingsExample with LODTransitionSpeed := 0 }

/-- A settled component state under the snap settings: smoothed and applied
level both 64, not dirty. -/
def lodSnapStateExample : UGPUTessellationComponentState :=
  { TessellationSettings := snapLODSettingsExample
    CurrentLODLevel := 64
    LastAppliedTessFactor := 64
    bRenderStateDirty := false }

theorem smoothedLODLevel_snap_eval :
    smoothedLODLevel 0 1 1 lodSnapStateExample = ((64 : ℤ) : ℚ) := by
  simp only [smoothedLODLevel, lodSnapStateExample, snapLODSettingsExample,
    continuousLODSettingsExample, CalculateLODFactorScaled, Lerp]
  norm_num [Clamp, RoundToInt_eval_64]

theorem C6_hysteresis_blocks_commit_witness :
    |RoundToInt (smoothedLODLevel 0 1 1 lodSnapStateExample) -
        lodSnapStateExample.LastAppliedTessFactor| ≤
      lodSnapStateExample.TessellationSettings.LODHysteresis ∧
      ((UpdateDistanceBasedLOD 0 1 1 lodSnapStateExample).LastAppliedTessFactor =
          lodSnapStateExample.LastAppliedTessFactor ∧
        (UpdateDistanceBasedLOD 0 1 1 lodSnapStateExample).bRenderStateDirty =
          lodSnapStateExample.bRenderStateDirty) := by
  have hhyp : |RoundToInt (smoothedLODLevel 0 1 1 lodSnapStateExample) -
      lodSnapStateExample.LastAppliedTessFactor| ≤
      lodSnapStateExample.TessellationSettings.LODHysteresis := by
    rw [smoothedLODLevel_snap_eval, RoundToInt_intCast]
    decide
  exact ⟨hhyp, C6_hysteresis_blocks_commit 0 1 1 lodSnapStateExample hhyp⟩

/-- A fresh component state under the smoothing settings (transition speed
2): smoothed level and applied level 0, camera parked at the plane. -/
def oscillatingLODState : UGPUTessellationComponentState :=
  { TessellationSettings := continuousLODSettingsExample
    CurrentLODLevel := 0
    LastAppliedTessFactor := 0
    bRenderStateDirty := false }

/-- The state one evaluation later: smoothing has moved the level halfway
to the target 64 and committed 32. -/
def oscillatingLODStateAfter1 : UGPUTessellationComponentState :=
  { TessellationSettings := continuousLODSettingsExample
    CurrentLODLevel := 32
    LastAppliedTessFactor := 32
    bRenderStateDirty := true }

theorem oscillating_smoothed1 :
    smoothedLODLevel 0 1 (1/4) oscillatingLODState = 32 := by
  simp only [smoothedLODLevel, oscillatingLODState, continuousLODSettingsExample,
    CalculateLODFactorScaled, Lerp, FInterpTo]
  norm_num [Clamp, RoundToInt_eval_64]

theorem oscillating_step1 :
    UpdateDistanceBasedLOD 0 1 (1/4) oscillatingLODState =
      oscillatingLODStateAfter1 := by
  simp only [UpdateDistanceBasedLOD, oscillating_smoothed1, RoundToInt_eval_32]
  norm_num [oscillatingLODState, oscillatingLODStateAfter1,
    continuousLODSettingsExample]

theorem oscillating_smoothed2 :
    smoothedLODLevel 0 1 (1/4) oscillatingLODStateAfter1 = 48 := by
  simp only [smoothedLODLevel, oscillatingLODStateAfter1,
    continuousLODSettingsExample, CalculateLODFactorScaled, Lerp, FInterpTo]
  norm_num [Clamp, RoundToInt_eval_64]

/-- C7: the claim that repeated LOD evaluation with unchanged distance and
settings never changes `lastAppliedLevel` is false with smoothing enabled:
from a fresh state with target 64 and half-step smoothing, the first call
commits 32 and the second call — same distance 0, same scale 1, same delta
time 1/4, settings untouched per the first conjunct — commits 48. -/
theorem C7_lod_idempotence_counterexample :
    (UpdateDistanceBasedLOD 0 1 (1/4) oscillatingLODState).TessellationSettings =
        oscillatingLODState.TessellationSettings ∧
      (UpdateDistanceBasedLOD 0 1 (1/4) oscillatingLODState).LastAppliedTessFactor = 32 ∧
      (UpdateDistanceBasedLOD 0 1 (1/4)
          (UpdateDistanceBasedLOD 0 1 (1/4) oscillatingLODState)).LastAppliedTessFactor = 48 := by
  refine ⟨by rw [oscillating_step1]; rfl, by rw [oscillating_step1]; rfl, ?_⟩
  rw [oscillating_step1]
  simp only [UpdateDistanceBasedLOD, oscillating_smoothed2, RoundToInt_eval_48]
  norm_num [oscillatingLODStateAfter1, continuousLODSettingsExample]

theorem UpdateDistanceBasedLOD_last_snap (Distance MaxScale DeltaTime : ℚ)
    (s : UGPUTessellationComponentState)
    (hs : s.TessellationSettings.LODTransitionSpeed ≤ 0) :
    (UpdateDistanceBasedLOD Distance MaxScale DeltaTime s).LastAppliedTessFactor =
      if s.TessellationSettings.LODHysteresis <
          |CalculateLODFactorScaled s.TessellationSettings Distance
              (s.TessellationSettings.MinTessellationDistance * MaxScale)
              (s.TessellationSettings.MaxTessellationDistance * MaxScale) -
            s.LastAppliedTessFactor| then
        CalculateLODFactorScaled s.TessellationSettings Distance
          (s.TessellationSettings.MinTessellationDistance * MaxScale)
          (s.TessellationSettings.MaxTessellationDistance * MaxScale)
      else s.LastAppliedTessFactor := by
  unfold UpdateDistanceBasedLOD smoothedLODLevel
  dsimp only
  rw [if_neg (not_lt.2 hs), RoundToInt_intCast]
  split_ifs <;> rfl

theorem UpdateDiscreteLOD_last (Distance MaxScale : ℚ)
    (s : UGPUTessellationComponentState) :
    (UpdateDiscreteLOD Distance MaxScale s).LastAppliedTessFactor =
      if s.TessellationSettings.LODHysteresis ≤
          |UpdateDiscreteLOD_targetFactor (Distance / MaxScale)
              s.TessellationSettings - s.LastAppliedTessFactor| then
        UpdateDiscreteLOD_targetFactor (Distance / MaxScale) s.TessellationSettings
      else s.LastAppliedTessFactor := by
  unfold UpdateDiscreteLOD
  dsimp only
  split_ifs <;> rfl

/-- C7 (amended): repeated LOD evaluation with unchanged distance and
settings can keep changing `lastAppliedLevel` while exponential smoothing
converges (see the counterexample); idempotence from the second call on
does hold when the continuous evaluator snaps (transitionSpeed ≤ 0), and
for the discrete evaluator: one call's output state is a fixed point of a
further call with the same measurement. -/
theorem C7_lod_idempotence_amended
    (Distance MaxScale DeltaTime DiscreteDistance DiscreteMaxScale : ℚ)
    (st : UGPUTessellationComponentState)
    (hsnap : st.TessellationSettings.LODTransitionSpeed ≤ 0) :
    (UpdateDistanceBasedLOD Distance MaxScale DeltaTime
          (UpdateDistanceBasedLOD Distance MaxScale DeltaTime st)).LastAppliedTessFactor =
        (UpdateDistanceBasedLOD Distance MaxScale DeltaTime st).LastAppliedTessFactor ∧
      (UpdateDiscreteLOD DiscreteDistance DiscreteMaxScale
          (UpdateDiscreteLOD DiscreteDistance DiscreteMaxScale st)).LastAppliedTessFactor =
        (UpdateDiscreteLOD DiscreteDistance DiscreteMaxScale st).LastAppliedTessFactor := by
  constructor
  · have hs1 := UpdateDistanceBasedLOD_settings Distance MaxScale DeltaTime st
    rw [UpdateDistanceBasedLOD_last_snap Distance MaxScale DeltaTime
        (UpdateDistanceBasedLOD Distance MaxScale DeltaTime st)
        (by rw [hs1]; exact hsnap),
      UpdateDistanceBasedLOD_last_snap Distance MaxScale DeltaTime st hsnap, hs1]
    split_ifs <;> rfl
  · have hs1 := UpdateDiscreteLOD_settings DiscreteDistance DiscreteMaxScale st
    rw [UpdateDiscreteLOD_last DiscreteDistance DiscreteMaxScale
        (UpdateDiscreteLOD DiscreteDistance DiscreteMaxScale st),
      UpdateDiscreteLOD_last DiscreteDistance DiscreteMaxScale st, hs1]
    split_ifs <;> rfl

theorem C7_lod_idempotence_amended_witness :
    lodSnapStateExample.TessellationSettings.LODTransitionSpeed ≤ 0 ∧
      ((UpdateDistanceBasedLOD 0 1 1
            (UpdateDistanceBasedLOD 0 1 1 lodSnapStateExample)).LastAppliedTessFactor =
          (UpdateDistanceBasedLOD 0 1 1 lodSnapStateExample).LastAppliedTessFactor ∧
        (UpdateDiscreteLOD 0 1
            (UpdateDiscreteLOD 0 1 lodSnapStateExample)).LastAppliedTessFactor =
          (UpdateDiscreteLOD 0 1 lodSnapStateExample).LastAppliedTessFactor) :=
  ⟨by decide, C7_lod_idempotence_amended 0 1 1 0 1 lodSnapStateExample (by decide)⟩

/-- One LOD evaluator invocation, in either distance-based mode, with its
per-call measurements. -/
inductive LODEvaluationCall : Type
  | continuous (Distance MaxScale DeltaTime : ℚ)
  | discrete (Distance MaxScale : ℚ)

/-- Apply one LOD evaluation to the component state. -/
def applyLODEvaluation : LODEvaluationCall → UGPUTessellationComponentState →
    UGPUTessellationComponentState
  | .continuous Distance MaxScale DeltaTime, st =>
    UpdateDistanceBasedLOD Distance MaxScale DeltaTime st
  | .discrete Distance MaxScale, st => UpdateDiscreteLOD Distance MaxScale st

/-- Apply a sequence of LOD evaluations to the component state. -/
def applyLODEvaluations : List LODEvaluationCall → UGPUTessellationComponentState →
    UGPUTessellationComponentState
  | [], st => st
  | c :: cs, st => applyLODEvaluations cs (applyLODEvaluation c st)

/-- C9: no sequence of LOD evaluation steps, in any mode, ever overwrites
the user-authored `TessellationSettings.TessellationFactor` (LOD output
lives in the separate `LastAppliedTessFactor` field), and the grid
resolution is computed from the user factor exactly when LOD mode is
Disabled, from `LastAppliedTessFactor` otherwise. -/
theorem C9_lod_never_overwrites_user_factor (calls : List LODEvaluationCall)
    (st : UGPUTessellationComponentState) :
    (applyLODEvaluations calls st).TessellationSettings.TessellationFactor =
        st.TessellationSettings.TessellationFactor ∧
      CalculateGridResolution st =
        CalculateGridResolutionFromFactor
          (if st.TessellationSettings.LODMode = EGPUTessellationLODMode.Disabled then
            st.TessellationSettings.TessellationFactor
          else st.LastAppliedTessFactor) := by
  constructor
  · induction calls generalizing st with
    | nil => rfl
    | cons c cs ih =>
      have hstep : (applyLODEvaluation c st).TessellationSettings =
          st.TessellationSettings := by
        cases c with
        | continuous Distance MaxScale DeltaTime =>
          exact UpdateDistanceBasedLOD_settings Distance MaxScale DeltaTime st
        | discrete Distance MaxScale => exact UpdateDiscreteLOD_settings Distance MaxScale st
      calc (applyLODEvaluations (c :: cs) st).TessellationSettings.TessellationFactor
          = (applyLODEvaluations cs
              (applyLODEvaluation c st)).TessellationSettings.TessellationFactor := rfl
        _ = (applyLODEvaluation c st).TessellationSettings.TessellationFactor :=
          ih (applyLODEvaluation c st)
        _ = st.TessellationSettings.TessellationFactor := by rw [hstep]
  · by_cases hmode : st.TessellationSettings.LODMode = EGPUTessellationLODMode.Disabled <;>
      simp [CalculateGridResolution, hmode]

/-- FGPUTessellationMeshBuilder::GenerateSinglePatch
(GPUTessellationMeshBuilder.cpp, lines 698-751 validation prologue): the
patch's buffer set, abstracted to its dimensions
(ResolutionX, ResolutionY, VertexCount, IndexCount); `none` models the
`OutPatchBuffers.Reset()` early returns for an invalid tessellation level,
a sub-2x2 resolution, non-positive counts, or malformed UV offset/scale. -/
def GenerateSinglePatch (Patch : FGPUTessellationPatchInfo) :
    Option (ℕ × ℕ × ℤ × ℤ) :=
  if Patch.TessellationLevel ≤ 0 then none
  else
    let Resolution := CalculateResolution (Patch.TessellationLevel : ℚ)
    let VertexCount : ℤ := (Resolution.1 : ℤ) * (Resolution.2 : ℤ)
    let IndexCount : ℤ := ((Resolution.1 : ℤ) - 1) * ((Resolution.2 : ℤ) - 1) * 6
    if Resolution.1 < 2 ∨ Resolution.2 < 2 then none
    else if VertexCount ≤ 0 ∨ IndexCount ≤ 0 then none
    else if Patch.PatchOffset.1 < 0 ∨ Patch.PatchOffset.2 < 0 ∨
        1 < Patch.PatchOffset.1 ∨ 1 < Patch.PatchOffset.2 ∨
        Patch.PatchSize.1 ≤ 0 ∨ Patch.PatchSize.2 ≤ 0 ∨
        1 < Patch.PatchSize.1 ∨ 1 < Patch.PatchSize.2 then none
    else some (Resolution.1, Resolution.2, VertexCount, IndexCount)

/-- The per-patch body of the generation loop in
FGPUTessellationMeshBuilder::ExecutePatchTessellationPipeline
(GPUTessellationMeshBuilder.cpp, lines 643-692): culled patches and patches
with a non-positive tessellation level are reset and skipped, the rest go
through `GenerateSinglePatch`. -/
def ExecutePatchPipelineStep (Patch : FGPUTessellationPatchInfo) :
    Option (ℕ × ℕ × ℤ × ℤ) :=
  if Patch.bVisible = false then none
  else if Patch.TessellationLevel ≤ 0 then none
  else GenerateSinglePatch Patch

/-- The per-patch outputs of ExecutePatchTessellationPipeline: each patch's
buffer set is produced independently from its own PatchInfo. -/
def ExecutePatchTessellationPipeline
    (PatchInfo : List FGPUTessellationPatchInfo) : List (Option (ℕ × ℕ × ℤ × ℤ)) :=
  PatchInfo.map ExecutePatchPipelineStep

theorem ExecutePatchPipelineStep_none_of_invalid (p : FGPUTessellationPatchInfo)
    (hbad : p.TessellationLevel ≤ 0 ∨
      (CalculateResolution (p.TessellationLevel : ℚ)).1 < 2 ∨
      (CalculateResolution (p.TessellationLevel : ℚ)).2 < 2 ∨
      p.PatchOffset.1 < 0 ∨ p.PatchOffset.2 < 0 ∨
      1 < p.PatchOffset.1 ∨ 1 < p.PatchOffset.2 ∨
      p.PatchSize.1 ≤ 0 ∨ p.PatchSize.2 ≤ 0 ∨
      1 < p.PatchSize.1 ∨ 1 < p.PatchSize.2) :
    ExecutePatchPipelineStep p = none := by
  unfold ExecutePatchPipelineStep GenerateSinglePatch
  dsimp only
  split_ifs with h1 h2 h3 h4 h5 <;> try rfl
  exfalso
  rcases hbad with hb | hb | hb | hb | hb | hb | hb | hb | hb | hb | hb
  · exact h2 hb
  · exact h3 (Or.inl hb)
  · exact h3 (Or.inr hb)
  all_goals exact h5 (by tauto)

/-- C8: in a patch-mode generation run, a patch with an invalid tessellation
level (≤ 0), a sub-2x2 resolution, or malformed UV offset/scale gets its
buffer set reset (`none`, excluded from rendering) while every sibling
patch's output is exactly what its own PatchInfo generates, unaffected by
the invalid patch; the run is a total function and cannot crash. -/
theorem C8_invalid_patch_isolated (PatchInfo : List FGPUTessellationPatchInfo)
    (i : ℕ) (p : FGPUTessellationPatchInfo)
    (hp : PatchInfo.get? i = some p)
    (hbad : p.TessellationLevel ≤ 0 ∨
      (CalculateResolution (p.TessellationLevel : ℚ)).1 < 2 ∨
      (CalculateResolution (p.TessellationLevel : ℚ)).2 < 2 ∨
      p.PatchOffset.1 < 0 ∨ p.PatchOffset.2 < 0 ∨
      1 < p.PatchOffset.1 ∨ 1 < p.PatchOffset.2 ∨
      p.PatchSize.1 ≤ 0 ∨ p.PatchSize.2 ≤ 0 ∨
      1 < p.PatchSize.1 ∨ 1 < p.PatchSize.2) :
    (ExecutePatchTessellationPipeline PatchInfo).get? i = some none ∧
      ∀ (j : ℕ) (q : FGPUTessellationPatchInfo), j ≠ i →
        PatchInfo.get? j = some q →
        (ExecutePatchTessellationPipeline PatchInfo).get? j =
          some (ExecutePatchPipelineStep q) := by
  constructor
  · unfold ExecutePatchTessellationPipeline
    rw [List.get?_map, hp, Option.map_some',
      ExecutePatchPipelineStep_none_of_invalid p hbad]
  · intro j q _ hq
    unfold ExecutePatchTessellationPipeline
    rw [List.get?_map, hq, Option.map_some']

/-- The invalid patch of the C8 scenario: tessellation level 0. -/
def invalidPatchExample : FGPUTessellationPatchInfo :=
  { PatchOffset := (0, 0)
    PatchSize := (1, 1)
    TessellationLevel := 0
    ResolutionX := 0
    ResolutionY := 0
    bVisible := true }

/-- A well-formed sibling patch for the C8 scenario. -/
def validPatchExample : FGPUTessellationPatchInfo :=
  { PatchOffset := (0, 0)
    PatchSize := (1, 1)
    TessellationLevel := 16
    ResolutionX := 65
    ResolutionY := 65
    bVisible := true }

theorem C8_invalid_patch_isolated_witness :
    ([invalidPatchExample, validPatchExample].get? 0 = some invalidPatchExample) ∧
      invalidPatchExample.TessellationLevel ≤ 0 ∧
      (ExecutePatchTessellationPipeline
          [invalidPatchExample, validPatchExample]).get? 0 = some none ∧
      (ExecutePatchTessellationPipeline
          [invalidPatchExample, validPatchExample]).get? 1 =
        some (ExecutePatchPipelineStep validPatchExample) :=
  ⟨rfl, by decide,
    (C8_invalid_patch_isolated [invalidPatchExample, validPatchExample] 0
        invalidPatchExample rfl (Or.inl (by decide))).1,
    (C8_invalid_patch_isolated [invalidPatchExample, validPatchExample] 0
        invalidPatchExample rfl (Or.inl (by decide))).2 1 validPatchExample
      (by decide) rfl⟩
